import Mathlib

/-!
Verification of the campaign execution engine of the `campaign-wired-backed`
repository, shallowly embedded in Lean 4.

The embedding covers:
* the two template-substitution functions
  (`EmailService.applySubstitutions` in `src/services/emailService.ts`,
  modelled by `renderTemplate`, and the controller-level `applySubstitutions`
  in `src/controllers/campaignController.ts`, modelled by
  `applySubstitutionsCtrl`);
* the substitution-data merge of `EmailService.sendEmail` (`mergeData`) and its
  per-recipient fan-out after the transporter has been created
  (`sendEmailModel`);
* the `executeCampaign` controller: validation, the sequential per-contact
  loop with per-channel isolation, pacing delays, and the fatal-error path.

Modelling conventions:
* JavaScript runtime values occurring as substitution data are modelled by
  `JSValue` (strings, integer numbers, booleans, `null`, `undefined`), with
  JS truthiness (`JSValue.truthy`) and `String(·)` conversion
  (`JSValue.toStringJS`).
* Thrown exceptions / rejected promises are modelled with `Except String`:
  channel senders are oracles returning `Except String α`, and an exception
  escaping the per-contact body is modelled by a per-contact step returning
  `Except.error` (`executeCampaignWith`).
* `await delay(ms)` is modelled by recording `ms` in a trace of delays, the
  second component of `executeCampaign`'s result.
* Wall-clock data (the ISO timestamp stored in each contact result) is not
  modelled; it does not affect any claim.
* Strings inside JS template literals and object fields are modelled by Lean
  `String`; an optional field that JavaScript sees as `undefined` is `none`.
-/

namespace CampaignWired

/-- JavaScript runtime values used as substitution data
(`Record<string, any>` in the source). Numbers are restricted to integers. -/
inductive JSValue where
  | str (s : String)
  | num (n : Int)
  | bool (b : Bool)
  | null
  | undef
deriving DecidableEq

/-- JavaScript `String(v)` conversion. -/
def JSValue.toStringJS : JSValue → String
  | .str s => s
  | .num n => toString n
  | .bool b => if b then "true" else "false"
  | .null => "null"
  | .undef => "undefined"

/-- JavaScript truthiness of a value. -/
def JSValue.truthy : JSValue → Bool
  | .str s => s ≠ ""
  | .num n => n ≠ 0
  | .bool b => b
  | .null => false
  | .undef => false

/-- A JS object used as substitution data: keys in insertion order. -/
abbrev SubstData := List (String × JSValue)

/-- Property lookup on a substitution-data object (first binding wins,
mirroring the fact that JS object keys are unique). -/
def lookupData (d : SubstData) : String → Option JSValue :=
  fun k => d.lookup k

/-- JS `\w` character class (ASCII word character). -/
def isWordChar (c : Char) : Bool :=
  c.isAlphanum || c = '_'

/-- `EmailService.applySubstitutions` (emailService.ts lines 128-135):
one left-to-right pass of
`template.replace(/\x7b\x7b(\w+)\x7d\x7d/g, (match, key) =>
  data[key] !== undefined ? String(data[key]) : match)`.
`fuel` bounds the number of scanning steps; each step consumes at least one
character, so `fuel = length of the input` is always sufficient, and the
`renderTemplate` wrapper below supplies exactly that. -/
def renderAux (data : String → Option JSValue) : Nat → List Char → List Char
  | 0, l => l
  | _ + 1, [] => []
  | fuel + 1, c :: rest =>
    if c = '\x7b' then
      match rest with
      | [] => [c]
      | c2 :: rest2 =>
        if c2 = '\x7b' then
          let key := rest2.takeWhile isWordChar
          match rest2.dropWhile isWordChar with
          | '\x7d' :: '\x7d' :: tail =>
            if key = [] then
              -- `\w+` needs at least one character: no match here, the regex
              -- engine advances one position and rescans.
              c :: renderAux data fuel (c2 :: rest2)
            else
              match data (String.mk key) with
              | some v =>
                if v = JSValue.undef then
                  c :: c2 :: (key ++ '\x7d' :: '\x7d' :: renderAux data fuel tail)
                else
                  (JSValue.toStringJS v).data ++ renderAux data fuel tail
              | none =>
                c :: c2 :: (key ++ '\x7d' :: '\x7d' :: renderAux data fuel tail)
          | _ =>
            -- missing `\x7d\x7d` after the word run: no match at this
            -- position, advance one character and rescan.
            c :: renderAux data fuel (c2 :: rest2)
        else
          c :: renderAux data fuel (c2 :: rest2)
    else
      c :: renderAux data fuel rest

/-- The email-path template renderer (`EmailService.applySubstitutions`). -/
def renderTemplate (data : String → Option JSValue) (template : String) : String :=
  String.mk (renderAux data template.data.length template.data)

/-- One `String.prototype.replace(new RegExp(pattern, 'g'), repl)` pass for a
literal, non-empty pattern `p :: ps`: leftmost non-overlapping occurrences are
replaced and the replacement text is not rescanned. `fuel` bounds the number
of scanning steps; each step consumes at least one character. -/
def replaceAux (p : Char) (ps : List Char) (repl : List Char) :
    Nat → List Char → List Char
  | 0, l => l
  | _ + 1, [] => []
  | fuel + 1, c :: rest =>
    if (p :: ps).isPrefixOf (c :: rest) then
      repl ++ replaceAux p ps repl fuel (rest.drop ps.length)
    else
      c :: replaceAux p ps repl fuel rest

/-- Global replacement of a literal pattern, as
`text.replace(new RegExp(pattern, 'g'), repl)` behaves when `pattern` has no
regex metacharacters and `repl` has no `$` sequences — which is the situation
the controller creates for word-character substitution keys. -/
def replaceAllJS (pat repl s : String) : String :=
  match pat.data with
  | [] => s
  | p :: ps => String.mk (replaceAux p ps repl.data s.data.length s.data)

/-- The controller-level `applySubstitutions`
(campaignController.ts lines 11-23), used for the call and SMS messages:
returns the text unchanged when the data object or the text is falsy, and
otherwise applies, for each `[key, value]` entry in insertion order, a global
replace of `\x7b\x7bkey\x7d\x7d` by `String(value || '')`. -/
def applySubstitutionsCtrl (text : String) (substitutionData : Option SubstData) :
    String :=
  match substitutionData with
  | none => text
  | some entries =>
    if text = "" then text
    else
      entries.foldl
        (fun result kv =>
          replaceAllJS ("\x7b\x7b" ++ kv.1 ++ "\x7d\x7d")
            (if kv.2.truthy then kv.2.toStringJS else "") result)
        text

/-- The effective substitution mapping of `EmailService.sendEmail`
(emailService.ts lines 167-170): the JS spread
`\x7b...substitutionData, ...recipient.substitutionData\x7d`, observed through
property lookup — a key bound by the per-recipient object (even to
`undefined`) shadows the global binding. A `none` object spreads to nothing,
as `\x7b...undefined\x7d` does. -/
def mergeData (global perRecipient : Option SubstData) : String → Option JSValue :=
  fun k =>
    match lookupData (perRecipient.getD []) k with
    | some v => some v
    | none => lookupData (global.getD []) k

/-- JS truthiness of an optional string field: absent (`undefined`) and the
empty string are both falsy, as `!contact.email` / `!contact.phone` are. -/
def strFalsy : Option String → Bool
  | none => true
  | some s => s = ""

/-- JS `a || b` for an optional string `a` and a default `b`. -/
def jsOrStr (o : Option String) (d : String) : String :=
  match o with
  | some s => if s = "" then d else s
  | none => d

/-- One recipient of a campaign (`Contact` in campaignController.ts). -/
structure Contact where
  phone : Option String
  email : Option String
  name : Option String
  substitutionData : Option SubstData
deriving DecidableEq

/-- The body of `POST /campaign/execute` (`CampaignExecuteRequest`).
`channels` is kept as a list of runtime strings because validation inspects
arbitrary values; `none` models an absent field. -/
structure CampaignRequest where
  contacts : Option (List Contact)
  channels : Option (List String)
  callMessage : Option String
  smsMessage : Option String
  emailSubject : Option String
  emailHtml : Option String
  emailText : Option String
  emailSubstitutionData : Option SubstData
  delayBetweenContacts : Option Nat
deriving DecidableEq

/-- Per-user SMTP configuration (`SMTPConfig` in emailService.ts); carried
through to the email sender unchanged. -/
structure SMTPConfig where
  smtp_host : String
  smtp_port : Nat
  smtp_user : String
  smtp_pass : String
  smtp_secure : Option Bool
  smtp_from_email : Option String
  smtp_from_name : Option String
deriving DecidableEq

/-- `EmailRecipient` in emailService.ts. -/
structure EmailRecipient where
  email : String
  name : Option String
  substitutionData : Option SubstData
deriving DecidableEq

/-- `SendEmailParams` in emailService.ts. `fromAddr` models the `from` field
(`from` is a Lean keyword; likewise `toRecipients`, `toNumber` and `toLine` model `to` fields). -/
structure SendEmailParams where
  toRecipients : List EmailRecipient
  fromAddr : EmailRecipient
  subject : String
  html : Option String
  text : Option String
  substitutionData : Option SubstData
  smtpConfig : Option SMTPConfig
deriving DecidableEq

/-- Argument of `vonageService.createOutboundCall` and
`messagesService.sendSms`: `\x7b to, from, text \x7d`. -/
structure PhoneSendParams where
  toNumber : String
  fromNumber : String
  text : String
deriving DecidableEq

/-- The process environment and per-request ambient state read by
`executeCampaign` before the loop: `process.env.VONAGE_VIRTUAL_NUMBER`,
`process.env.EMAIL_FROM_ADDRESS`, `process.env.EMAIL_FROM_NAME`, and the
user's custom SMTP configuration as resolved by the (exception-safe)
`getUserSmtpConfig` block. -/
structure Env where
  vonageVirtualNumber : Option String
  emailFromAddress : Option String
  emailFromName : Option String
  userSmtpConfig : Option SMTPConfig

/-- `const vonageFrom = process.env.VONAGE_VIRTUAL_NUMBER` as used through the
falsy test `!vonageFrom`: an empty-string environment variable behaves like an
absent one. -/
def Env.vonageFrom (e : Env) : Option String :=
  match e.vonageVirtualNumber with
  | some s => if s = "" then none else some s
  | none => none

/-- Outcome recorded for one channel of one contact: either
`\x7b success: true, result \x7d` or `\x7b success: false, error \x7d`. -/
inductive ChannelOutcome (α : Type) where
  | success (result : α)
  | failure (error : String)
deriving DecidableEq

/-- The `results` object of one contact: a key is present iff the channel was
requested. -/
structure ChannelResults (α : Type) where
  email : Option (ChannelOutcome α)
  call : Option (ChannelOutcome α)
  sms : Option (ChannelOutcome α)
deriving DecidableEq

/-- One entry of the response's `results` array. The ISO timestamp of the
source is wall-clock data and is not modelled. -/
structure ContactResult (α : Type) where
  contact : Contact
  results : ChannelResults α
deriving DecidableEq

/-- The three channel-sender capabilities the Executor calls, as oracles:
a returned `Except.error` models a sender failure / thrown exception at the
point of the channel call. `α` is the provider payload type. -/
structure Senders (α : Type) where
  sendEmail : SendEmailParams → Except String α
  createOutboundCall : PhoneSendParams → Except String α
  sendSms : PhoneSendParams → Except String α

/-- The `emailService.sendEmail` argument built for one contact
(campaignController.ts lines 133-145), including the environment-derived
`from` identity (lines 97-100). -/
def emailParamsFor (env : Env) (req : CampaignRequest) (contact : Contact) :
    SendEmailParams where
  toRecipients := [{ email := contact.email.getD "", name := contact.name,
                     substitutionData := contact.substitutionData }]
  fromAddr := { email := jsOrStr env.emailFromAddress "noreply@example.com",
                name := some (jsOrStr env.emailFromName "Colla Campaign"),
                substitutionData := none }
  subject := jsOrStr req.emailSubject "Message from Colla Campaign"
  html := req.emailHtml
  text := some (jsOrStr req.emailText "Hello from Colla Campaign")
  substitutionData := req.emailSubstitutionData
  smtpConfig := env.userSmtpConfig

/-- The `vonageService.createOutboundCall` argument built for one contact
(lines 162-171): the call message rendered through the controller-level
substitution with the contact's own data. -/
def callParamsFor (req : CampaignRequest) (vonageFrom : String) (contact : Contact) :
    PhoneSendParams where
  toNumber := contact.phone.getD ""
  fromNumber := vonageFrom
  text := applySubstitutionsCtrl
    (jsOrStr req.callMessage "This is a call from your Colla Campaign")
    contact.substitutionData

/-- The `messagesService.sendSms` argument built for one contact
(lines 188-197). -/
def smsParamsFor (req : CampaignRequest) (vonageFrom : String) (contact : Contact) :
    PhoneSendParams where
  toNumber := contact.phone.getD ""
  fromNumber := vonageFrom
  text := applySubstitutionsCtrl (jsOrStr req.smsMessage "Hello from Colla Campaign")
    contact.substitutionData

/-- The email branch of the per-contact body (lines 128-151): missing
destination and sender failure both become a failure outcome. -/
def emailOutcome (senders : Senders α) (env : Env) (req : CampaignRequest)
    (contact : Contact) : ChannelOutcome α :=
  if strFalsy contact.email then .failure "No email provided for contact"
  else
    match senders.sendEmail (emailParamsFor env req contact) with
    | .ok r => .success r
    | .error e => .failure e

/-- The call branch of the per-contact body (lines 154-177). -/
def callOutcome (senders : Senders α) (env : Env) (req : CampaignRequest)
    (contact : Contact) : ChannelOutcome α :=
  if strFalsy contact.phone then .failure "No phone provided for contact"
  else
    match env.vonageFrom with
    | none => .failure "VONAGE_VIRTUAL_NUMBER not configured"
    | some vonageFrom =>
      match senders.createOutboundCall (callParamsFor req vonageFrom contact) with
      | .ok r => .success r
      | .error e => .failure e

/-- The SMS branch of the per-contact body (lines 180-203). -/
def smsOutcome (senders : Senders α) (env : Env) (req : CampaignRequest)
    (contact : Contact) : ChannelOutcome α :=
  if strFalsy contact.phone then .failure "No phone provided for contact"
  else
    match env.vonageFrom with
    | none => .failure "VONAGE_VIRTUAL_NUMBER not configured"
    | some vonageFrom =>
      match senders.sendSms (smsParamsFor req vonageFrom contact) with
      | .ok r => .success r
      | .error e => .failure e

/-- The per-contact body of the loop (lines 121-205): one `ContactResult`
whose `results` object gets a key exactly for each requested channel. -/
def processContact (senders : Senders α) (env : Env) (req : CampaignRequest)
    (contact : Contact) : ContactResult α :=
  let channels := req.channels.getD []
  { contact := contact,
    results :=
      { email := if channels.contains "email" then
                   some (emailOutcome senders env req contact) else none,
        call := if channels.contains "call" then
                  some (callOutcome senders env req contact) else none,
        sms := if channels.contains "sms" then
                 some (smsOutcome senders env req contact) else none } }

/-- `const validChannels = ['call', 'sms', 'email']`. -/
def validChannels : List String := ["call", "sms", "email"]

/-- The `for (const channel of channels)` validation loop (lines 89-93):
the first value outside `validChannels`, if any. -/
def firstInvalidChannel : List String → Option String
  | [] => none
  | ch :: rest =>
    if validChannels.contains ch then firstInvalidChannel rest else some ch

/-- Request validation (lines 79-93), with the exact 400-response messages.
A `none` field models a missing (or non-array, for the two array fields)
value. -/
def validateRequest (req : CampaignRequest) : Option String :=
  match req.contacts with
  | none => some "Missing or empty \"contacts\" array"
  | some contacts =>
    if contacts.isEmpty then some "Missing or empty \"contacts\" array"
    else
      match req.channels with
      | none => some "Missing or empty \"channels\" array"
      | some channels =>
        if channels.isEmpty then some "Missing or empty \"channels\" array"
        else
          match firstInvalidChannel channels with
          | some ch => some ("Invalid channel: " ++ ch ++ ". Valid: call, sms, email")
          | none => none

/-- The three shapes of the `executeCampaign` HTTP response: 400 on
validation failure, the success body, and the 500 body of the fatal path
(lines 218-225) carrying the results accumulated so far. -/
inductive ExecuteResponse (α : Type) where
  | invalidRequest (error : String)
  | completed (message : String) (results : List (ContactResult α))
  | fatal (error : String) (partialResults : List (ContactResult α))
deriving DecidableEq

/-- The `results` array carried by a response (empty for a 400). -/
def ExecuteResponse.resultsOf : ExecuteResponse α → List (ContactResult α)
  | .invalidRequest _ => []
  | .completed _ rs => rs
  | .fatal _ rs => rs

/-- The success message template of line 215. -/
def campaignMessage (numContacts numChannels : Nat) : String :=
  "Campaign executed for " ++ toString numContacts ++ " contact(s) across "
    ++ toString numChannels ++ " channel(s)"

/-- The `for (let i = 0; ...)` loop (lines 119-211) over the remaining
contacts, starting at index `i` of `N` total. `step` is the per-contact body;
an `Except.error` models an exception escaping it (the fatal path). Returns
(fatal error if any, results pushed so far in order, trace of `delay` calls).
The delay after contact `i` is recorded exactly when `i < N - 1`, and happens
before the next contact is attempted. -/
def runContactsAux (step : Nat → Contact → Except String (ContactResult α))
    (delayMs N : Nat) : List Contact → Nat →
    Option String × List (ContactResult α) × List Nat
  | [], _ => (none, [], [])
  | contact :: rest, i =>
    match step i contact with
    | .error e => (some e, [], [])
    | .ok contactResult =>
      let out := runContactsAux step delayMs N rest (i + 1)
      (out.1, contactResult :: out.2.1,
        if i < N - 1 then delayMs :: out.2.2 else out.2.2)

/-- `executeCampaign` with an explicit per-contact step: validation
(fail fast, before any channel I/O), then the sequential loop inside the
outer `try`, then the 200 or 500 response. The second component is the trace
of pacing delays. -/
def executeCampaignWith (step : Nat → Contact → Except String (ContactResult α))
    (req : CampaignRequest) : ExecuteResponse α × List Nat :=
  match validateRequest req with
  | some err => (.invalidRequest err, [])
  | none =>
    let contacts := req.contacts.getD []
    let channels := req.channels.getD []
    let delayBetweenContacts := req.delayBetweenContacts.getD 3000
    let out := runContactsAux step delayBetweenContacts contacts.length contacts 0
    match out.1 with
    | some e => (.fatal e out.2.1, out.2.2)
    | none =>
      (.completed (campaignMessage contacts.length channels.length) out.2.1,
        out.2.2)

/-- `executeCampaign` (campaignController.ts lines 66-226) as written: the
per-contact body is `processContact`, which is total — every sender failure
is caught inside a channel branch, so the fatal path is reached only by
exceptions outside those branches (cf. `executeCampaignWith`). -/
def executeCampaign (senders : Senders α) (env : Env) (req : CampaignRequest) :
    ExecuteResponse α × List Nat :=
  executeCampaignWith
    (fun _ contact => .ok (processContact senders env req contact)) req

/-- The `mailOptions` object handed to `transporter.sendMail`
(emailService.ts lines 182-190). -/
structure MailOptions where
  fromAddr : String
  toLine : String
  subject : String
  html : Option String
  text : Option String
deriving DecidableEq

/-- One entry of `sendEmail`'s `results` array (lines 195-208). -/
structure RecipientResult where
  success : Bool
  recipient : String
  messageId : Option String
  error : Option String
deriving DecidableEq

/-- The resolved value of `EmailService.sendEmail` (lines 224-228). -/
structure EmailSendResult where
  total_rejected_recipients : Nat
  total_accepted_recipients : Nat
  results : List RecipientResult
deriving DecidableEq

/-- `subject/html/text ? this.applySubstitutions(·, mergedData) : ·` — a falsy
template (absent or empty) passes through unchanged. -/
def renderOptTemplate (data : String → Option JSValue) : Option String → Option String
  | none => none
  | some t => if t = "" then some t else some (renderTemplate data t)

/-- The per-recipient fan-out of `EmailService.sendEmail`
(emailService.ts lines 166-228), after the transporter has been created and
the sender identity `fromEmail`/`fromName` resolved (transporter creation
happens before this point and its failure rejects the whole call — that is
the sender-level failure modelled by `Senders.sendEmail` returning
`Except.error`). `transport` is the `transporter.sendMail` oracle: `ok`
carries the `messageId`, `error` the per-recipient transport failure, which
is caught in the `map` callback and returned as data. -/
def sendEmailModel (transport : MailOptions → Except String String)
    (fromEmail fromName : String) (p : SendEmailParams) : EmailSendResult :=
  let results := p.toRecipients.map (fun recipient =>
    let mergedData := mergeData p.substitutionData recipient.substitutionData
    let personalizedSubject :=
      if p.subject = "" then p.subject else renderTemplate mergedData p.subject
    let personalizedHtml := renderOptTemplate mergedData p.html
    let personalizedText := renderOptTemplate mergedData p.text
    let mailOptions : MailOptions :=
      { fromAddr := "\"" ++ fromName ++ "\" <" ++ fromEmail ++ ">",
        toLine := match recipient.name with
              | some n => if n = "" then recipient.email
                          else "\"" ++ n ++ "\" <" ++ recipient.email ++ ">"
              | none => recipient.email,
        subject := personalizedSubject,
        html := personalizedHtml,
        text := personalizedText }
    match transport mailOptions with
    | .ok messageId =>
      { success := true, recipient := recipient.email,
        messageId := some messageId, error := none }
    | .error e =>
      { success := false, recipient := recipient.email,
        messageId := none, error := some e })
  { total_rejected_recipients := (results.filter (fun r => !r.success)).length,
    total_accepted_recipients := (results.filter (fun r => r.success)).length,
    results := results }

/-- Index-aware map over the processed prefix of the contact list, used to
describe partial results of the fatal path. -/
def mapFrom (f : Nat → Contact → β) : List Contact → Nat → List β
  | [], _ => []
  | c :: l, i => f i c :: mapFrom f l (i + 1)

/-!  Helper lemmas about the embedded functions.  -/

/-- The loop, when every per-contact step succeeds and the step does not
depend on the index: every contact is processed in order and a pacing delay
is recorded after every contact except the last. -/
theorem runContactsAux_map (f : Contact → ContactResult α) (d N : Nat) :
    ∀ (l : List Contact) (i : Nat), i + l.length = N →
      runContactsAux (fun _ c => Except.ok (f c)) d N l i =
        (none, l.map f, List.replicate (l.length - 1) d) := by
  intro l
  induction l with
  | nil => intro i _; rfl
  | cons c rest ih =>
    intro i h
    simp only [runContactsAux]
    rw [ih (i + 1) (by simp at h ⊢; omega)]
    cases rest with
    | nil =>
      have : ¬ i < N - 1 := by simp at h; omega
      simp [this]
    | cons c2 rest2 =>
      have : i < N - 1 := by simp at h; omega
      simp [this, List.replicate_succ]

/-- The loop, when the per-contact step raises an uncaught exception at the
contact following `front`: the fatal error surfaces and exactly the results
of `front`, in order, are kept. -/
theorem runContactsAux_fatal (step : Nat → Contact → Except String (ContactResult α))
    (stepOk : Nat → Contact → ContactResult α) (d N : Nat) (e : String)
    (cK : Contact) (back : List Contact) :
    ∀ (front : List Contact) (i : Nat),
      (∀ j c, j < i + front.length → step j c = Except.ok (stepOk j c)) →
      step (i + front.length) cK = Except.error e →
      (runContactsAux step d N (front ++ cK :: back) i).1 = some e ∧
        (runContactsAux step d N (front ++ cK :: back) i).2.1
          = mapFrom stepOk front i := by
  intro front
  induction front with
  | nil =>
    intro i _ herr
    have herr' : step i cK = Except.error e := by simpa using herr
    simp [runContactsAux, herr', mapFrom]
  | cons c front' ih =>
    intro i hok herr
    have hc : step i c = Except.ok (stepOk i c) := hok i c (by simp)
    have hok' : ∀ j c', j < (i + 1) + front'.length →
        step j c' = Except.ok (stepOk j c') := by
      intro j c' hj
      exact hok j c' (by simp; omega)
    have herr' : step ((i + 1) + front'.length) cK = Except.error e := by
      have : (i + 1) + front'.length = i + (c :: front').length := by
        simp; omega
      rw [this]; exact herr
    obtain ⟨ih1, ih2⟩ := ih (i + 1) hok' herr'
    constructor
    · simp only [List.cons_append, runContactsAux, hc]
      exact ih1
    · simp only [List.cons_append, runContactsAux, hc, mapFrom]
      exact congrArg (fun l => stepOk i c :: l) ih2

/-- A request satisfying the four validity conditions passes validation. -/
theorem validateRequest_none (req : CampaignRequest)
    (contacts : List Contact) (channels : List String)
    (h1 : req.contacts = some contacts) (h2 : contacts ≠ [])
    (h3 : req.channels = some channels) (h4 : channels ≠ [])
    (h5 : firstInvalidChannel channels = none) :
    validateRequest req = none := by
  simp [validateRequest, h1, h3, h5, h2, h4]

/-- A valid request runs to completion: the response is the success shape,
the results are the per-contact bodies mapped over the contacts in order, and
the pacing trace has one configured delay per contact except the last. -/
theorem executeCampaign_valid (senders : Senders α) (env : Env)
    (req : CampaignRequest) (contacts : List Contact) (channels : List String)
    (h1 : req.contacts = some contacts) (h2 : contacts ≠ [])
    (h3 : req.channels = some channels) (h4 : channels ≠ [])
    (h5 : firstInvalidChannel channels = none) :
    executeCampaign senders env req =
      (ExecuteResponse.completed (campaignMessage contacts.length channels.length)
        (contacts.map (processContact senders env req)),
       List.replicate (contacts.length - 1) (req.delayBetweenContacts.getD 3000)) := by
  unfold executeCampaign executeCampaignWith
  rw [validateRequest_none req contacts channels h1 h2 h3 h4 h5]
  simp only [h1, h3, Option.getD_some]
  rw [runContactsAux_map (processContact senders env req)
    (req.delayBetweenContacts.getD 3000) contacts.length contacts 0 (by simp)]

theorem mapFrom_length (f : Nat → Contact → β) :
    ∀ (l : List Contact) (i : Nat), (mapFrom f l i).length = l.length := by
  intro l
  induction l with
  | nil => intro i; rfl
  | cons c rest ih => intro i; simp [mapFrom, ih]

/-!  Template decompositions, for the universal per-occurrence
characterization of the two rendering paths (claim C5). A template is split
into literal text and placeholder occurrences; the two `renderSpec`
definitions below follow the (amended) claim's words, one rule per
occurrence, and are proven to coincide with the scanners embedded from the
source on every well-formed decomposition.  -/

/-- A piece of a template: literal text, or one placeholder occurrence
`\x7b\x7bkey\x7d\x7d`. -/
inductive TemplatePart where
  | lit (text : String)
  | hole (key : String)
deriving DecidableEq

/-- The text a part stands for. -/
def TemplatePart.text : TemplatePart → String
  | .lit s => s
  | .hole k => "\x7b\x7b" ++ k ++ "\x7d\x7d"

/-- Claim C1: for every campaign request and contact, a failure or thrown
exception from any channel sender invoked for that contact is caught at the
point of the channel call and recorded in that contact's results as
`\x7bsuccess:false, error:<message>\x7d`; it never propagates out of the
per-contact loop, so the remaining channels and contacts are processed
unchanged. Formally: for arbitrary sender oracles (including ones that fail)
a valid campaign always completes with every contact processed independently
by `processContact`, and an erroring sender yields exactly the failure
outcome, recorded under that channel's key. -/
theorem claim1_channel_failure_isolated (α : Type) (senders : Senders α)
    (env : Env) (req : CampaignRequest) (contacts : List Contact)
    (channels : List String)
    (h1 : req.contacts = some contacts) (h2 : contacts ≠ [])
    (h3 : req.channels = some channels) (h4 : channels ≠ [])
    (h5 : firstInvalidChannel channels = none) :
    ((executeCampaign senders env req).1
      = ExecuteResponse.completed (campaignMessage contacts.length channels.length)
          (contacts.map (processContact senders env req)))
    ∧ (∀ (contact : Contact) (e : String),
        strFalsy contact.email = false →
        senders.sendEmail (emailParamsFor env req contact) = Except.error e →
        emailOutcome senders env req contact = ChannelOutcome.failure e)
    ∧ (∀ (contact : Contact) (e vFrom : String),
        strFalsy contact.phone = false → env.vonageFrom = some vFrom →
        senders.createOutboundCall (callParamsFor req vFrom contact)
          = Except.error e →
        callOutcome senders env req contact = ChannelOutcome.failure e)
    ∧ (∀ (contact : Contact) (e vFrom : String),
        strFalsy contact.phone = false → env.vonageFrom = some vFrom →
        senders.sendSms (smsParamsFor req vFrom contact) = Except.error e →
        smsOutcome senders env req contact = ChannelOutcome.failure e)
    ∧ (∀ contact : Contact,
        (channels.contains "email" = true →
          (processContact senders env req contact).results.email
            = some (emailOutcome senders env req contact))
        ∧ (channels.contains "call" = true →
          (processContact senders env req contact).results.call
            = some (callOutcome senders env req contact))
        ∧ (channels.contains "sms" = true →
          (processContact senders env req contact).results.sms
            = some (smsOutcome senders env req contact))) := by
  refine ⟨?_, ?_, ?_, ?_, ?_⟩
  · rw [executeCampaign_valid senders env req contacts channels h1 h2 h3 h4 h5]
  · intro contact e hfalsy herr
    simp [emailOutcome, hfalsy, herr]
  · intro contact e vFrom hfalsy hvf herr
    simp [callOutcome, hfalsy, hvf, herr]
  · intro contact e vFrom hfalsy hvf herr
    simp [smsOutcome, hfalsy, hvf, herr]
  · intro contact
    refine ⟨?_, ?_, ?_⟩ <;> intro hch <;>
      [ (have hmem : "email" ∈ channels := by simpa using hch);
        (have hmem : "call" ∈ channels := by simpa using hch);
        (have hmem : "sms" ∈ channels := by simpa using hch)] <;>
      simp [processContact, h3, hmem]

/-- Claim C2: for every valid campaign request that completes, the results
sequence has exactly one `ContactResult` per contact and in the same order:
`response.results[i].contact = request.contacts[i]` for every index. -/
theorem claim2_order_preserved (α : Type) (senders : Senders α) (env : Env)
    (req : CampaignRequest) (contacts : List Contact) (channels : List String)
    (h1 : req.contacts = some contacts) (h2 : contacts ≠ [])
    (h3 : req.channels = some channels) (h4 : channels ≠ [])
    (h5 : firstInvalidChannel channels = none) :
    ((executeCampaign senders env req).1.resultsOf).length = contacts.length
    ∧ ∀ i : Nat,
        (((executeCampaign senders env req).1.resultsOf)[i]?).map
            ContactResult.contact
          = contacts[i]? := by
  have h := executeCampaign_valid senders env req contacts channels h1 h2 h3 h4 h5
  have hres : (executeCampaign senders env req).1.resultsOf
      = contacts.map (processContact senders env req) := by
    rw [h]; rfl
  constructor
  · rw [hres, List.length_map]
  · intro i
    rw [hres, List.getElem?_map, Option.map_map]
    have : ContactResult.contact ∘ processContact senders env req = id := by
      funext c; rfl
    rw [this, Option.map_id]
    rfl

/-- Claim C3: in every produced `ContactResult`, a channel key is present in
the results mapping iff that channel is in the request's channels list; a
requested channel whose destination field or sender configuration is missing
still gets a key, carrying a failure outcome. -/
theorem claim3_channel_keys_iff_requested (α : Type) (senders : Senders α)
    (env : Env) (req : CampaignRequest) (contacts : List Contact)
    (channels : List String)
    (h1 : req.contacts = some contacts) (h2 : contacts ≠ [])
    (h3 : req.channels = some channels) (h4 : channels ≠ [])
    (h5 : firstInvalidChannel channels = none) :
    (∀ r ∈ (executeCampaign senders env req).1.resultsOf,
      (r.results.email.isSome = channels.contains "email")
      ∧ (r.results.call.isSome = channels.contains "call")
      ∧ (r.results.sms.isSome = channels.contains "sms"))
    ∧ (∀ contact : Contact, channels.contains "email" = true →
        strFalsy contact.email = true →
        (processContact senders env req contact).results.email
          = some (ChannelOutcome.failure "No email provided for contact"))
    ∧ (∀ contact : Contact, channels.contains "call" = true →
        strFalsy contact.phone = false → env.vonageFrom = none →
        (processContact senders env req contact).results.call
          = some (ChannelOutcome.failure "VONAGE_VIRTUAL_NUMBER not configured")) := by
  have h := executeCampaign_valid senders env req contacts channels h1 h2 h3 h4 h5
  have hres : (executeCampaign senders env req).1.resultsOf
      = contacts.map (processContact senders env req) := by
    rw [h]; rfl
  refine ⟨?_, ?_, ?_⟩
  · intro r hr
    rw [hres] at hr
    obtain ⟨c, _, rfl⟩ := List.mem_map.mp hr
    refine ⟨?_, ?_, ?_⟩
    · cases hb : channels.contains "email"
      · have hm : "email" ∉ channels := by simpa using hb
        simp [processContact, h3, hb, hm]
      · have hm : "email" ∈ channels := by simpa using hb
        simp [processContact, h3, hb, hm]
    · cases hb : channels.contains "call"
      · have hm : "call" ∉ channels := by simpa using hb
        simp [processContact, h3, hb, hm]
      · have hm : "call" ∈ channels := by simpa using hb
        simp [processContact, h3, hb, hm]
    · cases hb : channels.contains "sms"
      · have hm : "sms" ∉ channels := by simpa using hb
        simp [processContact, h3, hb, hm]
      · have hm : "sms" ∈ channels := by simpa using hb
        simp [processContact, h3, hb, hm]
  · intro contact hch hfalsy
    have hm : "email" ∈ channels := by simpa using hch
    simp [processContact, h3, hm, emailOutcome, hfalsy]
  · intro contact hch hfalsy hvf
    have hm : "call" ∈ channels := by simpa using hch
    simp [processContact, h3, hm, callOutcome, hfalsy, hvf]

/-- Claim C4: if an exception escapes the per-contact processing (one not
captured as a per-channel outcome) after `K` contacts have been fully
processed, the Executor stops immediately and returns the fatal response
carrying exactly those `K` completed `ContactResult`s, in contact order. -/
theorem claim4_fatal_preserves_partial_results (α : Type)
    (step : Nat → Contact → Except String (ContactResult α))
    (stepOk : Nat → Contact → ContactResult α) (req : CampaignRequest)
    (front : List Contact) (cK : Contact) (back : List Contact)
    (channels : List String) (e : String)
    (h1 : req.contacts = some (front ++ cK :: back))
    (h3 : req.channels = some channels) (h4 : channels ≠ [])
    (h5 : firstInvalidChannel channels = none)
    (hok : ∀ j c, j < front.length → step j c = Except.ok (stepOk j c))
    (herr : step front.length cK = Except.error e) :
    (executeCampaignWith step req).1
      = ExecuteResponse.fatal e (mapFrom stepOk front 0)
    ∧ (mapFrom stepOk front 0).length = front.length := by
  have hrun := runContactsAux_fatal step stepOk
    (req.delayBetweenContacts.getD 3000) ((front ++ cK :: back).length) e cK back
    front 0 (by intro j c hj; exact hok j c (by omega))
    (by simpa using herr)
  constructor
  · unfold executeCampaignWith
    rw [validateRequest_none req (front ++ cK :: back) channels h1 (by simp)
      h3 h4 h5]
    simp only [h1, Option.getD_some]
    rw [hrun.1, hrun.2]
  · exact mapFrom_length stepOk front 0

/-- The `sendEmail` argument of the substitution-precedence example of the
spec: global data `first_name:"Customer"`, per-recipient data
`first_name:"John"`, subject `"Hi \x7b\x7bfirst_name\x7d\x7d"`. -/
def echoExampleParams : SendEmailParams where
  toRecipients := [{ email := "a@x.com", name := none,
                     substitutionData := some [("first_name", JSValue.str "John")] }]
  fromAddr := { email := "noreply@example.com", name := some "Colla Campaign",
                substitutionData := none }
  subject := "Hi \x7b\x7bfirst_name\x7d\x7d"
  html := none
  text := none
  substitutionData := some [("first_name", JSValue.str "Customer")]
  smtpConfig := none

/-- Claim C6: the effective mapping of an email send is the global
substitution data overwritten by the per-recipient data, so the
per-recipient value wins on every key collision; e.g. global
`first_name:"Customer"` with per-recipient `first_name:"John"` renders
`"Hi \x7b\x7bfirst_name\x7d\x7d"` as `"Hi John"` (observed here through a
transport oracle echoing the personalized subject back as the message id). -/
theorem claim6_per_recipient_wins (g r : SubstData) (k : String) (v : JSValue)
    (hv : lookupData r k = some v) :
    mergeData (some g) (some r) k = some v
    ∧ (∀ k' : String, lookupData r k' = none →
        mergeData (some g) (some r) k' = lookupData g k')
    ∧ (sendEmailModel (fun mo => Except.ok mo.subject) "noreply@example.com"
        "Colla Campaign" echoExampleParams).results
      = [{ success := true, recipient := "a@x.com",
           messageId := some "Hi John", error := none }] := by
  refine ⟨?_, ?_, by decide⟩
  · simp [mergeData, hv]
  · intro k' h
    simp [mergeData, h]

/-- Claim C7: a request with missing or empty contacts, or with missing,
empty, or invalid channels, gets an invalid-request error (naming the first
offending channel value in the invalid-channel case) before any channel
sender is invoked — the response is the same for every sender oracle and
carries no pacing delays. -/
theorem claim7_invalid_request_fails_fast (α : Type) (senders : Senders α)
    (env : Env) (req : CampaignRequest) :
    (req.contacts = none →
      (executeCampaign senders env req).1
        = ExecuteResponse.invalidRequest "Missing or empty \"contacts\" array")
    ∧ (req.contacts = some [] →
      (executeCampaign senders env req).1
        = ExecuteResponse.invalidRequest "Missing or empty \"contacts\" array")
    ∧ (∀ contacts : List Contact, req.contacts = some contacts → contacts ≠ [] →
        req.channels = none →
        (executeCampaign senders env req).1
          = ExecuteResponse.invalidRequest "Missing or empty \"channels\" array")
    ∧ (∀ contacts : List Contact, req.contacts = some contacts → contacts ≠ [] →
        req.channels = some [] →
        (executeCampaign senders env req).1
          = ExecuteResponse.invalidRequest "Missing or empty \"channels\" array")
    ∧ (∀ (contacts : List Contact) (channels : List String) (ch : String),
        req.contacts = some contacts → contacts ≠ [] →
        req.channels = some channels →
        firstInvalidChannel channels = some ch →
        (executeCampaign senders env req).1
          = ExecuteResponse.invalidRequest
              ("Invalid channel: " ++ ch ++ ". Valid: call, sms, email"))
    ∧ (∀ err : String, validateRequest req = some err →
        executeCampaign senders env req = (ExecuteResponse.invalidRequest err, [])) := by
  refine ⟨?_, ?_, ?_, ?_, ?_, ?_⟩
  · intro h
    simp [executeCampaign, executeCampaignWith, validateRequest, h]
  · intro h
    simp [executeCampaign, executeCampaignWith, validateRequest, h]
  · intro contacts h1 h2 h
    simp [executeCampaign, executeCampaignWith, validateRequest, h1, h2, h]
  · intro contacts h1 h2 h
    simp [executeCampaign, executeCampaignWith, validateRequest, h1, h2, h]
  · intro contacts channels ch h1 h2 h3 hch
    have hne : channels ≠ [] := by
      intro h; subst h; simp [firstInvalidChannel] at hch
    simp [executeCampaign, executeCampaignWith, validateRequest, h1, h2, h3,
      hne, hch]
  · intro err h
    simp [executeCampaign, executeCampaignWith, h]

/-- Claim C8: a valid campaign with `N` contacts that completes performs
exactly `N - 1` pacing suspensions, one after each contact except the last,
each of `delayBetweenContacts` milliseconds (3000 when the field is absent). -/
theorem claim8_pacing_count (α : Type) (senders : Senders α) (env : Env)
    (req : CampaignRequest) (contacts : List Contact) (channels : List String)
    (h1 : req.contacts = some contacts) (h2 : contacts ≠ [])
    (h3 : req.channels = some channels) (h4 : channels ≠ [])
    (h5 : firstInvalidChannel channels = none) :
    (executeCampaign senders env req).2
      = List.replicate (contacts.length - 1) (req.delayBetweenContacts.getD 3000) := by
  rw [executeCampaign_valid senders env req contacts channels h1 h2 h3 h4 h5]

/-- Claim C9: when `VONAGE_VIRTUAL_NUMBER` is absent, a contact that has a
phone number gets `\x7bsuccess:false,
error:"VONAGE_VIRTUAL_NUMBER not configured"\x7d` recorded for the call and
SMS channels — for every sender oracle, so no sender is consulted — and the
campaign still completes over all contacts. -/
theorem claim9_missing_vonage_config_downgraded (α : Type) (senders : Senders α)
    (env : Env) (req : CampaignRequest) (contacts : List Contact)
    (channels : List String)
    (hv : env.vonageVirtualNumber = none)
    (h1 : req.contacts = some contacts) (h2 : contacts ≠ [])
    (h3 : req.channels = some channels) (h4 : channels ≠ [])
    (h5 : firstInvalidChannel channels = none) :
    (∀ contact : Contact, strFalsy contact.phone = false →
      (channels.contains "call" = true →
        (processContact senders env req contact).results.call
          = some (ChannelOutcome.failure "VONAGE_VIRTUAL_NUMBER not configured"))
      ∧ (channels.contains "sms" = true →
        (processContact senders env req contact).results.sms
          = some (ChannelOutcome.failure "VONAGE_VIRTUAL_NUMBER not configured")))
    ∧ (executeCampaign senders env req).1
        = ExecuteResponse.completed
            (campaignMessage contacts.length channels.length)
            (contacts.map (processContact senders env req)) := by
  constructor
  · intro contact hp
    have hvf : env.vonageFrom = none := by simp [Env.vonageFrom, hv]
    constructor
    · intro hch
      have hm : "call" ∈ channels := by simpa using hch
      simp [processContact, h3, hm, callOutcome, hp, hvf]
    · intro hch
      have hm : "sms" ∈ channels := by simpa using hch
      simp [processContact, h3, hm, smsOutcome, hp, hvf]
  · rw [executeCampaign_valid senders env req contacts channels h1 h2 h3 h4 h5]

/-- Claim C10: `EmailService.sendEmail` catches per-recipient transport
failures and returns them as data: the resolved value satisfies
`total_accepted_recipients + total_rejected_recipients = results.length`,
with one entry per recipient tagged `success` true or false; consequently the
Executor records the email channel as a success outcome whenever the send
resolves — even when every recipient was rejected by the transport. -/
theorem claim10_email_recipient_failures_as_data
    (transport : MailOptions → Except String String)
    (fromEmail fromName : String) (p : SendEmailParams) :
    (sendEmailModel transport fromEmail fromName p).total_accepted_recipients
        + (sendEmailModel transport fromEmail fromName p).total_rejected_recipients
      = (sendEmailModel transport fromEmail fromName p).results.length
    ∧ (sendEmailModel transport fromEmail fromName p).results.length
        = p.toRecipients.length
    ∧ (∀ r ∈ (sendEmailModel transport fromEmail fromName p).results,
        (r.success = true → r.error = none ∧ r.messageId.isSome = true)
        ∧ (r.success = false → r.messageId = none ∧ r.error.isSome = true))
    ∧ (∀ (α : Type) (senders : Senders α) (env : Env) (req : CampaignRequest)
        (contact : Contact) (payload : α),
        (req.channels.getD []).contains "email" = true →
        strFalsy contact.email = false →
        senders.sendEmail (emailParamsFor env req contact) = Except.ok payload →
        (processContact senders env req contact).results.email
          = some (ChannelOutcome.success payload)) := by
  refine ⟨?_, ?_, ?_, ?_⟩
  · have key : ∀ l : List RecipientResult,
        (l.filter (fun r => r.success)).length
          + (l.filter (fun r => !r.success)).length = l.length :=
      fun l => (List.length_eq_length_filter_add (fun r : RecipientResult => r.success)).symm
    simp only [sendEmailModel]
    exact key _
  · simp [sendEmailModel]
  · intro r hr
    simp only [sendEmailModel, List.mem_map] at hr
    obtain ⟨rec, _, rfl⟩ := hr
    rcases htr : transport _ with e | mid <;> simp [htr]
  · intro α senders env req contact payload hch hfalsy hok
    have hm : "email" ∈ req.channels.getD [] := by simpa using hch
    simp [processContact, hm, emailOutcome, hfalsy, hok]

/-!  Concrete fixtures used by the witnesses.  -/

/-- A contact with both destinations and per-recipient data. -/
def contactA : Contact where
  phone := some "15551230001"
  email := some "a@x.com"
  name := some "Ann"
  substitutionData := some [("first_name", JSValue.str "Ann")]

/-- A contact with an email address but no phone number. -/
def contactB : Contact where
  phone := none
  email := some "b@x.com"
  name := none
  substitutionData := none

/-- A contact with a phone number but no email address. -/
def contactNoEmail : Contact where
  phone := some "15551230002"
  email := none
  name := none
  substitutionData := none

/-- A valid two-contact email+SMS campaign request. -/
def reqW : CampaignRequest where
  contacts := some [contactA, contactB]
  channels := some ["email", "sms"]
  callMessage := none
  smsMessage := some "Hello \x7b\x7bfirst_name\x7d\x7d"
  emailSubject := some "Hi \x7b\x7bfirst_name\x7d\x7d"
  emailHtml := none
  emailText := none
  emailSubstitutionData := some [("first_name", JSValue.str "Customer")]
  delayBetweenContacts := none

/-- A request naming an unsupported channel. -/
def reqBadChannel : CampaignRequest where
  contacts := some [contactA]
  channels := some ["email", "fax"]
  callMessage := none
  smsMessage := none
  emailSubject := none
  emailHtml := none
  emailText := none
  emailSubstitutionData := none
  delayBetweenContacts := none

/-- A valid call+SMS campaign request. -/
def reqCallSms : CampaignRequest where
  contacts := some [contactA]
  channels := some ["call", "sms"]
  callMessage := none
  smsMessage := none
  emailSubject := none
  emailHtml := none
  emailText := none
  emailSubstitutionData := none
  delayBetweenContacts := none

/-- An environment with a configured Vonage virtual number. -/
def envW : Env where
  vonageVirtualNumber := some "15550009999"
  emailFromAddress := none
  emailFromName := none
  userSmtpConfig := none

/-- An environment without `VONAGE_VIRTUAL_NUMBER`. -/
def envNoVonage : Env where
  vonageVirtualNumber := none
  emailFromAddress := none
  emailFromName := none
  userSmtpConfig := none

/-- Sender oracles whose SMS provider is down. -/
def sendersW : Senders String where
  sendEmail := fun _ => Except.ok "email-queued"
  createOutboundCall := fun _ => Except.ok "call-started"
  sendSms := fun _ => Except.error "sms provider down"

/-- A trivial completed per-contact result, for exercising the fatal path. -/
def stepOkW : Nat → Contact → ContactResult String :=
  fun _ c => { contact := c, results := { email := none, call := none, sms := none } }

/-- A per-contact step that raises an uncaught exception at index 1. -/
def stepW : Nat → Contact → Except String (ContactResult String) :=
  fun i c => if i < 1 then Except.ok (stepOkW i c) else Except.error "boom"

/-- A transport that rejects every recipient. -/
def rejectTransport : MailOptions → Except String String :=
  fun _ => Except.error "550 rejected"

/-- A single-recipient email send. -/
def rejectParams : SendEmailParams where
  toRecipients := [{ email := "a@x.com", name := none, substitutionData := none }]
  fromAddr := { email := "noreply@example.com", name := none, substitutionData := none }
  subject := "S"
  html := none
  text := some "T"
  substitutionData := none
  smtpConfig := none

/-!  Witnesses.  -/

/-- Witness for C1: a concrete campaign whose SMS sender fails on every call
still completes, and the sender's error is recorded as the SMS outcome. -/
theorem claim1_witness :
    ((executeCampaign sendersW envW reqW).1
      = ExecuteResponse.completed (campaignMessage 2 2)
          ([contactA, contactB].map (processContact sendersW envW reqW)))
    ∧ smsOutcome sendersW envW reqW contactA
        = ChannelOutcome.failure "sms provider down" := by
  have h := claim1_channel_failure_isolated String sendersW envW reqW
    [contactA, contactB] ["email", "sms"] rfl (by decide) rfl (by decide) (by decide)
  exact ⟨h.1, h.2.2.2.1 contactA "sms provider down" "15550009999" (by decide)
    (by decide) rfl⟩

/-- Witness for C2 on the concrete two-contact campaign. -/
theorem claim2_witness :
    ((executeCampaign sendersW envW reqW).1.resultsOf).length = 2
    ∧ (((executeCampaign sendersW envW reqW).1.resultsOf)[0]?).map
        ContactResult.contact = some contactA := by
  have h := claim2_order_preserved String sendersW envW reqW [contactA, contactB]
    ["email", "sms"] rfl (by decide) rfl (by decide) (by decide)
  exact ⟨h.1, h.2 0⟩

/-- Witness for C3: a contact without an email address still gets the email
key, with the missing-destination failure. -/
theorem claim3_witness :
    (processContact sendersW envW reqW contactNoEmail).results.email
      = some (ChannelOutcome.failure "No email provided for contact") := by
  have h := claim3_channel_keys_iff_requested String sendersW envW reqW
    [contactA, contactB] ["email", "sms"] rfl (by decide) rfl (by decide) (by decide)
  exact h.2.1 contactNoEmail (by decide) (by decide)

/-- Witness for C4: an uncaught exception at the second contact yields the
fatal response carrying exactly the first contact's result. -/
theorem claim4_witness :
    (executeCampaignWith stepW reqW).1
      = ExecuteResponse.fatal "boom" (mapFrom stepOkW [contactA] 0)
    ∧ (mapFrom stepOkW [contactA] 0).length = 1 := by
  have h := claim4_fatal_preserves_partial_results String stepW stepOkW reqW
    [contactA] contactB [] ["email", "sms"] "boom" rfl rfl (by decide) (by decide)
    (by intro j c hj
        simp only [List.length_singleton, Nat.lt_one_iff] at hj
        subst hj
        rfl) rfl
  exact ⟨h.1, h.2⟩

/-- Witness for C6 at the spec's own example: per-recipient `"John"` wins
over global `"Customer"`. -/
theorem claim6_witness :
    mergeData (some [("first_name", JSValue.str "Customer")])
        (some [("first_name", JSValue.str "John")]) "first_name"
      = some (JSValue.str "John") := by
  exact (claim6_per_recipient_wins [("first_name", JSValue.str "Customer")]
    [("first_name", JSValue.str "John")] "first_name" (JSValue.str "John")
    (by decide)).1

/-- Witness for C7: a request naming channel `"fax"` is rejected with the
message naming it. -/
theorem claim7_witness :
    (executeCampaign sendersW envW reqBadChannel).1
      = ExecuteResponse.invalidRequest
          "Invalid channel: fax. Valid: call, sms, email" := by
  have h := claim7_invalid_request_fails_fast String sendersW envW reqBadChannel
  exact h.2.2.2.2.1 [contactA] ["email", "fax"] "fax" rfl (by decide) rfl (by decide)

/-- Witness for C8: two contacts, one pacing delay of the default 3000 ms. -/
theorem claim8_witness :
    (executeCampaign sendersW envW reqW).2 = List.replicate 1 3000 := by
  exact claim8_pacing_count String sendersW envW reqW [contactA, contactB]
    ["email", "sms"] rfl (by decide) rfl (by decide) (by decide)

/-- Witness for C9: with no Vonage number configured, a phone-bearing contact
gets the configuration failure recorded on both phone channels. -/
theorem claim9_witness :
    (processContact sendersW envNoVonage reqCallSms contactA).results.call
      = some (ChannelOutcome.failure "VONAGE_VIRTUAL_NUMBER not configured")
    ∧ (processContact sendersW envNoVonage reqCallSms contactA).results.sms
      = some (ChannelOutcome.failure "VONAGE_VIRTUAL_NUMBER not configured") := by
  have h := claim9_missing_vonage_config_downgraded String sendersW envNoVonage
    reqCallSms [contactA] ["call", "sms"] rfl rfl (by decide) rfl (by decide)
    (by decide)
  exact ⟨(h.1 contactA (by decide)).1 (by decide), (h.1 contactA (by decide)).2 (by decide)⟩

/-- Witness for C10: a send whose transport rejects its only recipient still
satisfies the accounting identity, and a resolving email send is recorded as
a success outcome by the Executor. -/
theorem claim10_witness :
    (sendEmailModel rejectTransport "noreply@example.com" "Colla Campaign"
        rejectParams).total_accepted_recipients
      + (sendEmailModel rejectTransport "noreply@example.com" "Colla Campaign"
          rejectParams).total_rejected_recipients
      = 1
    ∧ (processContact sendersW envW reqW contactA).results.email
      = some (ChannelOutcome.success "email-queued") := by
  have h := claim10_email_recipient_failures_as_data rejectTransport
    "noreply@example.com" "Colla Campaign" rejectParams
  refine ⟨h.1.trans h.2.1, ?_⟩
  exact h.2.2.2 String sendersW envW reqW contactA "email-queued" (by decide)
    (by decide) rfl

end CampaignWired
